import Mathlib

/-!
A shallow embedding, in Lean 4, of the AI-Therapy RAG assistant
(`cbt_dbt_rag_assistant`): its core data model (`Document`, `DocumentChunk`),
the PostgreSQL/pgvector vector store (`PostgresVectorStore.add` / `.query`),
the ingestion pipeline (`IngestionService.run_ingestion` and the
`run_ingestion.py` entry point), the query pipeline (`QueryService.query`),
and the Ollama LLM provider (`OllamaProvider.generate`).

Python dictionaries of metadata are modelled as association lists with
first-match lookup; floating-point vectors as lists of rationals; exceptions
raised by collaborators as `Except` values; the database transaction outcome
as an explicit Boolean commit flag.
-/

/-- A metadata value: the repository stores strings and integers
(e.g. `source` paths, `page` numbers, `chunk_index`). -/
inductive MetaVal where
  | str (s : String)
  | int (n : Int)
deriving DecidableEq, Repr

/-- Rendering of a metadata value to text, as Python's `str()` does in the
f-strings of `query_service.py`. -/
def MetaVal.toText : MetaVal → String
  | .str s => s
  | .int n => toString n

/-- Metadata mapping: association list with first-match-wins lookup,
modelling a Python `dict`'s key lookup. -/
def Meta.get (k : String) : List (String × MetaVal) → Option MetaVal
  | [] => none
  | (k', v) :: m => if k' = k then some v else Meta.get k m

/-- `src/core/models/document.py` — `Document`: a loaded document before
chunking. -/
structure Document where
  id : String
  content : String
  metadata : List (String × MetaVal)
deriving DecidableEq, Repr

/-- `src/core/models/document.py` — `DocumentChunk`: a chunk of a document,
with an optional embedding vector. -/
structure DocumentChunk where
  id : String
  document_id : String
  content : String
  metadata : List (String × MetaVal)
  embedding : Option (List ℚ)
deriving DecidableEq, Repr

/-- `postgres_vector_store.py` — `ChunkModel`: one persisted row of the
`document_chunks` table. `add` only inserts rows whose embedding passed
validation, so the row's embedding is a plain list. -/
structure ChunkModel where
  id : String
  document_id : String
  content : String
  chunk_metadata : List (String × MetaVal)
  embedding : List ℚ
deriving DecidableEq, Repr

/-- The durable contents of the `document_chunks` table, in insertion order
(`add` appends committed rows at the end). -/
structure StoreState where
  rows : List ChunkModel
deriving DecidableEq, Repr

/-- The validation applied by `PostgresVectorStore.add` to each chunk:
an embedding must be present and its length must equal the store's
configured embedding dimension (`self._embedding_dim`). -/
def validEmbedding (dim : Nat) (c : DocumentChunk) : Bool :=
  match c.embedding with
  | none => false
  | some e => e.length = dim

/-- Conversion of a validated `DocumentChunk` into a `ChunkModel` row, as
built in the loop of `PostgresVectorStore.add`: the id, document id, content,
metadata and embedding are carried over verbatim. -/
def toChunkModel (c : DocumentChunk) : ChunkModel :=
  { id := c.id
    document_id := c.document_id
    content := c.content
    chunk_metadata := c.metadata
    embedding := c.embedding.getD [] }

/-- `PostgresVectorStore.add(chunks)`: returns the new store state and the
list of ids reported to the caller. An empty input returns immediately;
chunks with a missing or mis-dimensioned embedding are skipped; if no chunk
survives validation nothing is persisted; otherwise all surviving chunks go
through one session whose single commit either succeeds (`commitOk = true`),
appending every row, or fails, in which case the session is rolled back and
an empty id list is returned. -/
def PostgresVectorStore.add (dim : Nat) (st : StoreState)
    (chunks : List DocumentChunk) (commitOk : Bool) :
    StoreState × List String :=
  if chunks.isEmpty then (st, [])
  else
    let valid := chunks.filter (validEmbedding dim)
    if valid.isEmpty then (st, [])
    else if commitOk then
      ({ rows := st.rows ++ valid.map toChunkModel }, valid.map (·.id))
    else (st, [])

/-- Stable insertion of `a` into `l`: `a` is placed before the first element
whose key is not smaller, so among equal keys an element inserted earlier
stays earlier. -/
def insertByKey (key : α → ℚ) (a : α) : List α → List α
  | [] => [a]
  | b :: l => if key a ≤ key b then a :: b :: l else b :: insertByKey key a l

/-- Modelled from the spec: the database-side
`ORDER BY embedding <=> query_vector` of `PostgresVectorStore.query` is
executed by pgvector inside PostgreSQL, not by repository code; per the spec
it ranks rows by ascending distance with ties broken by insertion order,
i.e. it is a stable sort of the table's rows by the distance key. -/
def sortByKey (key : α → ℚ) : List α → List α
  | [] => []
  | a :: l => insertByKey key a (sortByKey key l)

/-- One metadata filter condition of `PostgresVectorStore.query`:
`chunk_metadata->>key == str(value)`, i.e. the key must be present and its
text rendering must equal the text rendering of the supplied value. -/
def matchesFilter (r : ChunkModel) (kv : String × MetaVal) : Bool :=
  match Meta.get kv.1 r.chunk_metadata with
  | none => false
  | some v => v.toText = kv.2.toText

/-- Conjunction of all supplied filter conditions (`query` ANDs one `where`
clause per filter entry; no filters ⇒ unrestricted). -/
def matchesFilters (filters : List (String × MetaVal)) (r : ChunkModel) : Bool :=
  filters.all (matchesFilter r)

/-- Conversion of a row back to a `DocumentChunk`, as in the result loop of
`PostgresVectorStore.query`. -/
def chunkOfModel (r : ChunkModel) : DocumentChunk :=
  { id := r.id
    document_id := r.document_id
    content := r.content
    metadata := r.chunk_metadata
    embedding := some r.embedding }

/-- `PostgresVectorStore.query(query_embedding, top_k, filters)`.
An empty query embedding, a mis-dimensioned query embedding, and a database
error (`dbOk = false`, the `SQLAlchemyError` handler) all return an empty
list. Otherwise the matching rows are ranked by ascending distance to the
query vector — the distance function `dist` stands for pgvector's cosine
distance operator, computed by the database engine, not repository code —
and the first `top_k` are returned as `DocumentChunk`s. -/
def PostgresVectorStore.query (dim : Nat) (dist : List ℚ → List ℚ → ℚ)
    (st : StoreState) (query_embedding : List ℚ) (top_k : Nat)
    (filters : Option (List (String × MetaVal))) (dbOk : Bool) :
    List DocumentChunk :=
  if query_embedding.isEmpty then []
  else if query_embedding.length ≠ dim then []
  else if !dbOk then []
  else
    let matching := st.rows.filter (matchesFilters (filters.getD []))
    let ranked := sortByKey (fun r => dist query_embedding r.embedding) matching
    (ranked.take top_k).map chunkOfModel

/-- Step 2 of `IngestionService.run_ingestion` for one document: split the
content, and for the `i`-th piece build a `DocumentChunk` whose metadata is a
copy of the parent document's metadata with `chunk_index = i` set on the copy
(a later entry shadows an earlier one under first-match lookup, like a Python
`dict` assignment after `.copy()`). The chunk id, a fresh `uuid4` in the
source, is supplied by the injective-by-convention generator `idGen`. -/
def chunkDocument (split : String → List String) (idGen : String → Nat → String)
    (doc : Document) : List DocumentChunk :=
  (split doc.content).enum.map fun it =>
    { id := idGen doc.id it.1
      document_id := doc.id
      content := it.2
      metadata := ("chunk_index", MetaVal.int it.1) :: doc.metadata
      embedding := none }

/-- The batching `all_chunks[i : i + batch_size]` of step 3 of
`run_ingestion`: consecutive slices of size `bs` (the last one possibly
shorter). Defined only for `bs > 0`; the caller guards `bs = 0`. -/
def chunkBatches (bs : Nat) (l : List α) : List (List α) :=
  if h : l.isEmpty ∨ bs = 0 then []
  else
    have : (l.drop bs).length < l.length := by
      push_neg at h
      rcases l with _ | ⟨a, l⟩
      · simp at h
      · simp only [List.length_drop, List.length_cons]
        exact Nat.sub_lt (Nat.succ_pos _) (Nat.pos_of_ne_zero h.2)
  l.take bs :: chunkBatches bs (l.drop bs)
termination_by l.length

/-- Attaching the embedding vectors returned for a batch to its chunks, as
the `zip` loop of step 3 does. -/
def attachEmbeddings (batch : List DocumentChunk) (es : List (List ℚ)) :
    List DocumentChunk :=
  (batch.zip es).map fun ce => { ce.1 with embedding := some ce.2 }

/-- The embedding-result check of step 3:
`if not embeddings or len(embeddings) != len(batch_chunks)` the batch is
skipped. -/
def embedBatchBad (es : List (List ℚ)) (batch : List DocumentChunk) : Bool :=
  es.isEmpty || es.length ≠ batch.length

/-- The batch loop of step 3 of `IngestionService.run_ingestion`: embed each
batch; a batch whose embedding result is empty or of the wrong count is
skipped and processing continues; otherwise the batch is added to the vector
store (the `i`-th batch's commit outcome is `commitOk i`) and the number of
returned ids is accumulated. Returns the total count of stored chunks and
the final store state. -/
def processBatches (dim : Nat) (embed : List String → List (List ℚ))
    (commitOk : Nat → Bool) :
    Nat → StoreState → List (List DocumentChunk) → Nat × StoreState
  | _, st, [] => (0, st)
  | i, st, b :: bs =>
    let es := embed (b.map (·.content))
    if embedBatchBad es b then
      processBatches dim embed commitOk (i + 1) st bs
    else
      let r := PostgresVectorStore.add dim st (attachEmbeddings b es) (commitOk i)
      let rest := processBatches dim embed commitOk (i + 1) r.1 bs
      (r.2.length + rest.1, rest.2)

/-- `IngestionService.run_ingestion(source)`: load (the loader's result is
the `docs` argument), return `False` when no documents were loaded; chunk
every document, return `False` when no chunks were produced; otherwise embed
and store the chunks in batches and report success exactly when the total
number of stored chunks is positive. A batch size of zero makes Python's
`range` raise, which the outer handler converts to `False` with the store
untouched. -/
def run_ingestion (dim : Nat) (split : String → List String)
    (idGen : String → Nat → String) (embed : List String → List (List ℚ))
    (commitOk : Nat → Bool) (bs : Nat) (docs : List Document)
    (st : StoreState) : Bool × StoreState :=
  if docs.isEmpty then (false, st)
  else
    let all_chunks := docs.flatMap (chunkDocument split idGen)
    if all_chunks.isEmpty then (false, st)
    else if bs = 0 then (false, st)
    else
      let r := processBatches dim embed commitOk 0 st (chunkBatches bs all_chunks)
      (decide (0 < r.1), r.2)

/-- The exit path of `main` in `scripts/run_ingestion.py`: exit 0 when
`run_ingestion` reported success; otherwise re-load the documents (the
loader is deterministic, so the re-load yields `docs` again) and exit 0 when
that re-load is empty — the "no documents found" case — and 1 otherwise. -/
def ingestionMainExit (dim : Nat) (split : String → List String)
    (idGen : String → Nat → String) (embed : List String → List (List ℚ))
    (commitOk : Nat → Bool) (bs : Nat) (docs : List Document)
    (st : StoreState) : Nat :=
  if (run_ingestion dim split idGen embed commitOk bs docs st).1 then 0
  else if docs.isEmpty then 0
  else 1

/-- The context substituted by `QueryService.query` when retrieval returned
no chunks. -/
def NO_CONTEXT_MARKER : String := "No relevant context documents found."

/-- One context record of `QueryService.query`:
`f"Source: {metadata.get('source','N/A')}, Page: {metadata.get('page','N/A')}\n{content}"`. -/
def chunkRecord (c : DocumentChunk) : String :=
  "Source: " ++ ((Meta.get "source" c.metadata).map MetaVal.toText).getD "N/A"
    ++ ", Page: " ++ ((Meta.get "page" c.metadata).map MetaVal.toText).getD "N/A"
    ++ "\n" ++ c.content

/-- The context block of `QueryService.query`: the literal no-context marker
when nothing was retrieved, otherwise the records of the retrieved chunks
joined by `"\n---\n"` in retrieval order. -/
def formatContext (chunks : List DocumentChunk) : String :=
  if chunks.isEmpty then NO_CONTEXT_MARKER
  else String.intercalate "\n---\n" (chunks.map chunkRecord)

/-- `DEFAULT_PROMPT_TEMPLATE.format(context=..., query=...)` of
`query_service.py`: the default template is a literal containing `{context}`
and `{query}` exactly once each, so formatting is concatenation of the three
literal segments around the two substituted values. -/
def buildPrompt (context query : String) : String :=
  "\nBased on the following context documents, please answer the user's query.\nProvide a concise and helpful answer grounded in the provided context.\nIf the context doesn't contain the answer, state that you couldn't find relevant information in the documents.\n\nContext Documents:\n---\n"
    ++ context
    ++ "\n---\n\nUser Query: "
    ++ query
    ++ "\n\nAnswer:\n"

/-- The collaborators of `QueryService`: each call either raises
(`Except.error`, carrying the exception's message) or returns a value. -/
structure QueryCollabs where
  embedQuery : String → Except String (List ℚ)
  storeQuery : List ℚ → Nat → Except String (List DocumentChunk)
  llmGenerate : String → Except String String
deriving Inhabited

/-- The observable outcome of one `QueryService.query` call: the returned
string, the arguments of each `vector_store.query` call made, and the prompt
of each `llm.generate` call made. -/
structure QueryOutcome where
  result : String
  storeCalls : List (List ℚ × Nat)
  llmCalls : List String
deriving DecidableEq, Repr

/-- `QueryService.query(user_query)`: embed the query (an exception anywhere
is caught by the surrounding handler and turned into
`"[Error processing query: ...]"`); an empty embedding returns
`"[Error: Failed to embed query]"` with no retrieval and no generation;
otherwise retrieve `top_k` chunks, build the context block and the prompt,
call the LLM exactly once with that prompt, and return its response
unmodified. -/
def QueryService.query (col : QueryCollabs) (top_k : Nat)
    (user_query : String) : QueryOutcome :=
  match col.embedQuery user_query with
  | .error e => ⟨"[Error processing query: " ++ e ++ "]", [], []⟩
  | .ok qe =>
    if qe.isEmpty then ⟨"[Error: Failed to embed query]", [], []⟩
    else
      match col.storeQuery qe top_k with
      | .error e => ⟨"[Error processing query: " ++ e ++ "]", [(qe, top_k)], []⟩
      | .ok chunks =>
        let prompt := buildPrompt (formatContext chunks) user_query
        match col.llmGenerate prompt with
        | .error e =>
          ⟨"[Error processing query: " ++ e ++ "]", [(qe, top_k)], [prompt]⟩
        | .ok resp => ⟨resp, [(qe, top_k)], [prompt]⟩

/-- One Ollama API call of `OllamaProvider.generate`: either raises
(`Except.error` with the exception's message) or returns a response from
which the text field may be absent (`response.get(..., '')`). -/
abbrev OllamaCall := Except String (Option String)

/-- `model or self.default_model` in `OllamaProvider.generate`: Python's
`or` falls back to the default when `model` is `None` or empty (falsy). -/
def targetModel (defaultModel : String) (model : Option String) : String :=
  match model with
  | none => defaultModel
  | some m => if m.isEmpty then defaultModel else m

/-- `OllamaProvider.generate(prompt, history, model)`: pick
`model or self.default_model`; with a non-empty history call the chat
endpoint on `history + [user prompt]`, otherwise the generate endpoint on
the prompt alone; on success return the extracted text (defaulting to `""`
when the field is absent) stripped of leading and trailing whitespace; on
any API exception return the bracketed error string. -/
def OllamaProvider.generate (defaultModel : String)
    (chatCall : String → List (String × String) → OllamaCall)
    (genCall : String → String → OllamaCall)
    (prompt : String) (history : List (String × String))
    (model : Option String) : String :=
  let target := targetModel defaultModel model
  if history.isEmpty then
    match genCall target prompt with
    | .ok r => (r.getD "").trim
    | .error e => "[Error generating response: " ++ e ++ "]"
  else
    match chatCall target (history ++ [("user", prompt)]) with
    | .ok r => (r.getD "").trim
    | .error e => "[Error generating response: " ++ e ++ "]"

/-! ### Concrete fixtures used in example instantiations -/

/-- A concrete distance function for instantiating the ranking model:
the negated dot product (ascending for cosine distance on unit vectors). -/
def dist₀ (a b : List ℚ) : ℚ := -(((a.zip b).map fun p => p.1 * p.2).sum)

/-- A splitter yielding no pieces for empty content and the whole content
otherwise, as `RecursiveCharacterTextSplitter` does on short inputs. -/
def split₀ : String → List String := fun s => if s.isEmpty then [] else [s]

/-- A deterministic chunk-id generator standing in for `uuid4`. -/
def idGen₀ : String → Nat → String := fun d i => d ++ "#" ++ toString i

/-- An embedder returning the fixed two-dimensional vector `[1, 0]` for
every text. -/
def embed₀ : List String → List (List ℚ) := fun ts => ts.map fun _ => [1, 0]

/-- An embedder that always fails, returning the empty list. -/
def embedFailing : List String → List (List ℚ) := fun _ => []

/-- A commit oracle under which every database commit succeeds. -/
def commitAll : Nat → Bool := fun _ => true

/-- A document with content and a source. -/
def doc₀ : Document := ⟨"doc-1", "hello", [("source", .str "a.txt")]⟩

/-- A document whose content yields no chunks under `split₀`. -/
def docNoChunks : Document := ⟨"doc-2", "", []⟩

/-- The empty store. -/
def emptyStore : StoreState := ⟨[]⟩

/-- Two persisted rows with two-dimensional embeddings. -/
def row₀ : ChunkModel := ⟨"c-1", "doc-1", "alpha", [("source", .str "a.txt")], [1, 0]⟩

/-- A second persisted row. -/
def row₁ : ChunkModel := ⟨"c-2", "doc-1", "beta", [("source", .str "a.txt")], [0, 1]⟩

/-- A chunk passing validation at dimension 2. -/
def chunkValid : DocumentChunk := ⟨"c-1", "doc-1", "alpha", [("source", .str "a.txt")], some [1, 0]⟩

/-- A chunk whose embedding has the wrong length at dimension 2. -/
def chunkWrongDim : DocumentChunk := ⟨"c-2", "doc-1", "beta", [], some [1, 0, 0]⟩

/-- A chunk with no embedding at all. -/
def chunkNoEmbedding : DocumentChunk := ⟨"c-3", "doc-1", "gamma", [], none⟩

/-- Collaborators for `QueryService` that all succeed, retrieval returning
nothing and generation answering `"answer"`. -/
def colOk : QueryCollabs :=
  ⟨fun _ => .ok [1, 0], fun _ _ => .ok [], fun _ => .ok "answer"⟩

/-- Collaborators whose generation step returns text with surrounding
whitespace. -/
def colWhitespace : QueryCollabs :=
  ⟨fun _ => .ok [1, 0], fun _ _ => .ok [], fun _ => .ok "  hi  "⟩

/-- An Ollama generate-endpoint call that succeeds with padded text. -/
def genCallOk : String → String → OllamaCall := fun _ _ => .ok (some "  resp  ")

/-- An Ollama chat-endpoint call that raises. -/
def chatCallErr : String → List (String × String) → OllamaCall :=
  fun _ _ => .error "API down"

/-! ### Lemmas about the stable ranking -/

theorem length_insertByKey (key : α → ℚ) (a : α) (l : List α) :
    (insertByKey key a l).length = l.length + 1 := by
  induction l with
  | nil => rfl
  | cons b l ih =>
    simp only [insertByKey]
    split
    · simp
    · simp [ih]

theorem length_sortByKey (key : α → ℚ) (l : List α) :
    (sortByKey key l).length = l.length := by
  induction l with
  | nil => rfl
  | cons a l ih => simp [sortByKey, length_insertByKey, ih]

theorem mem_insertByKey (key : α → ℚ) (a x : α) (l : List α)
    (h : x ∈ insertByKey key a l) : x = a ∨ x ∈ l := by
  induction l with
  | nil => simpa [insertByKey] using h
  | cons b l ih =>
    simp only [insertByKey] at h
    split at h
    · rcases List.mem_cons.1 h with h | h
      · exact Or.inl h
      · exact Or.inr h
    · rcases List.mem_cons.1 h with h | h
      · exact Or.inr (h ▸ List.mem_cons_self _ _)
      · rcases ih h with h | h
        · exact Or.inl h
        · exact Or.inr (List.mem_cons_of_mem _ h)

theorem pairwise_insertByKey (key : α → ℚ) (a : α) (l : List α)
    (h : List.Pairwise (fun x y => key x ≤ key y) l) :
    List.Pairwise (fun x y => key x ≤ key y) (insertByKey key a l) := by
  induction l with
  | nil => simp [insertByKey]
  | cons b l ih =>
    simp only [insertByKey]
    rcases List.pairwise_cons.1 h with ⟨hb, hl⟩
    split
    · rename_i hab
      refine List.pairwise_cons.2 ⟨?_, h⟩
      intro x hx
      rcases List.mem_cons.1 hx with hx | hx
      · exact hx ▸ hab
      · exact le_trans hab (hb x hx)
    · rename_i hab
      push_neg at hab
      refine List.pairwise_cons.2 ⟨?_, ih hl⟩
      intro x hx
      rcases mem_insertByKey key a x l hx with hx' | hx'
      · exact hx' ▸ le_of_lt hab
      · exact hb x hx'

theorem pairwise_sortByKey (key : α → ℚ) (l : List α) :
    List.Pairwise (fun x y => key x ≤ key y) (sortByKey key l) := by
  induction l with
  | nil => exact List.Pairwise.nil
  | cons a l ih => exact pairwise_insertByKey key a _ ih

theorem filter_insertByKey (key : α → ℚ) (q : ℚ) (a : α) (l : List α) :
    (insertByKey key a l).filter (fun x => decide (key x = q)) =
      if key a = q then a :: l.filter (fun x => decide (key x = q))
      else l.filter (fun x => decide (key x = q)) := by
  induction l with
  | nil =>
    by_cases haq : key a = q
    · simp [insertByKey, List.filter, haq]
    · simp [insertByKey, List.filter, haq]
  | cons b l ih =>
    simp only [insertByKey]
    split
    · rename_i hab
      by_cases haq : key a = q
      · simp [List.filter, haq]
      · simp [List.filter, haq]
    · rename_i hab
      push_neg at hab
      by_cases haq : key a = q
      · have hbq : ¬ key b = q := by
          intro hbq
          rw [haq, hbq] at hab
          exact lt_irrefl q hab
        simp [List.filter, hbq, haq, ih]
      · by_cases hbq : key b = q
        · simp [List.filter, hbq, haq, ih]
        · simp [List.filter, hbq, haq, ih]

theorem filter_sortByKey (key : α → ℚ) (q : ℚ) (l : List α) :
    (sortByKey key l).filter (fun x => decide (key x = q)) =
      l.filter (fun x => decide (key x = q)) := by
  induction l with
  | nil => rfl
  | cons a l ih =>
    simp only [sortByKey, filter_insertByKey, ih]
    by_cases haq : key a = q
    · simp [List.filter, haq]
    · simp [List.filter, haq]

/-! ### Lemmas about `PostgresVectorStore.add` -/

theorem add_true_eq (dim : Nat) (st : StoreState) (chunks : List DocumentChunk) :
    PostgresVectorStore.add dim st chunks true
      = ({ rows := st.rows ++ (chunks.filter (validEmbedding dim)).map toChunkModel },
         (chunks.filter (validEmbedding dim)).map (·.id)) := by
  unfold PostgresVectorStore.add
  by_cases h1 : chunks.isEmpty
  · have h1' : chunks = [] := List.isEmpty_iff.1 h1
    subst h1'
    simp
  · by_cases h2 : (chunks.filter (validEmbedding dim)).isEmpty
    · have h2' : chunks.filter (validEmbedding dim) = [] := List.isEmpty_iff.1 h2
      simp [h1, h2, h2']
    · simp [h1, h2]

theorem add_false_eq (dim : Nat) (st : StoreState) (chunks : List DocumentChunk) :
    PostgresVectorStore.add dim st chunks false = (st, []) := by
  unfold PostgresVectorStore.add
  by_cases h1 : chunks.isEmpty
  · simp [h1]
  · by_cases h2 : (chunks.filter (validEmbedding dim)).isEmpty
    · simp [h1, h2]
    · simp [h1, h2]

/-- `C1`: every chunk with a missing or mis-dimensioned embedding is
excluded from `add`'s returned id list and no row for it is persisted
(in particular it is never truncated or padded into shape), and when the
commit succeeds the returned ids are exactly the ids of the chunks that
passed validation, in input order, with exactly their rows appended
verbatim to the store. Chunk ids are assumed pairwise distinct, as `uuid4`
guarantees in the source. -/
theorem C1_add_validation (dim : Nat) (st : StoreState)
    (chunks : List DocumentChunk)
    (hids : (chunks.map DocumentChunk.id).Nodup) :
    (PostgresVectorStore.add dim st chunks true).2
        = (chunks.filter (validEmbedding dim)).map (·.id)
    ∧ (PostgresVectorStore.add dim st chunks true).1.rows
        = st.rows ++ (chunks.filter (validEmbedding dim)).map toChunkModel
    ∧ ∀ (ok : Bool), ∀ c ∈ chunks, validEmbedding dim c = false →
        c.id ∉ (PostgresVectorStore.add dim st chunks ok).2
        ∧ ∀ r ∈ (PostgresVectorStore.add dim st chunks ok).1.rows,
            r ∈ st.rows ∨ r.id ≠ c.id := by
  refine ⟨by rw [add_true_eq], by rw [add_true_eq], ?_⟩
  intro ok c hc hbad
  have hinj := List.inj_on_of_nodup_map hids
  cases ok with
  | false =>
    rw [add_false_eq]
    exact ⟨List.not_mem_nil _, fun r hr => Or.inl hr⟩
  | true =>
    rw [add_true_eq]
    constructor
    · intro hmem
      rcases List.mem_map.1 hmem with ⟨c', hc', hid⟩
      rcases List.mem_filter.1 hc' with ⟨hc'mem, hc'valid⟩
      have : c' = c := hinj hc'mem hc hid
      rw [this] at hc'valid
      rw [hbad] at hc'valid
      exact Bool.false_ne_true hc'valid
    · intro r hr
      rcases List.mem_append.1 hr with hr | hr
      · exact Or.inl hr
      · rcases List.mem_map.1 hr with ⟨c', hc', hrc⟩
        rcases List.mem_filter.1 hc' with ⟨hc'mem, hc'valid⟩
        refine Or.inr ?_
        intro hid
        have hid' : c'.id = c.id := by rw [← hrc] at hid; exact hid
        have : c' = c := hinj hc'mem hc hid'
        rw [this] at hc'valid
        rw [hbad] at hc'valid
        exact Bool.false_ne_true hc'valid

/-- Witness for `C1_add_validation` at a concrete input: one valid chunk,
one mis-dimensioned chunk and one chunk with no embedding, at dimension 2,
over the empty store. -/
theorem C1_add_validation_witness :
    (([chunkValid, chunkWrongDim, chunkNoEmbedding].map DocumentChunk.id).Nodup)
    ∧ ((PostgresVectorStore.add 2 emptyStore
          [chunkValid, chunkWrongDim, chunkNoEmbedding] true).2
        = ([chunkValid, chunkWrongDim, chunkNoEmbedding].filter
            (validEmbedding 2)).map (·.id)
      ∧ (PostgresVectorStore.add 2 emptyStore
          [chunkValid, chunkWrongDim, chunkNoEmbedding] true).1.rows
        = emptyStore.rows ++ ([chunkValid, chunkWrongDim, chunkNoEmbedding].filter
            (validEmbedding 2)).map toChunkModel
      ∧ ∀ (ok : Bool), ∀ c ∈ [chunkValid, chunkWrongDim, chunkNoEmbedding],
          validEmbedding 2 c = false →
          c.id ∉ (PostgresVectorStore.add 2 emptyStore
              [chunkValid, chunkWrongDim, chunkNoEmbedding] ok).2
          ∧ ∀ r ∈ (PostgresVectorStore.add 2 emptyStore
              [chunkValid, chunkWrongDim, chunkNoEmbedding] ok).1.rows,
              r ∈ emptyStore.rows ∨ r.id ≠ c.id) :=
  ⟨by decide, C1_add_validation 2 emptyStore _ (by decide)⟩

/-- `C4`: one `add` call is atomic — on commit failure the store is
unchanged and the id list empty, and in general either every validated
chunk's row is appended and every validated id returned, or nothing
changed and nothing was returned; no strict subset of the validated
chunks is ever durably stored. -/
theorem C4_add_atomic (dim : Nat) (st : StoreState)
    (chunks : List DocumentChunk) (commitOk : Bool) :
    PostgresVectorStore.add dim st chunks false = (st, [])
    ∧ (((PostgresVectorStore.add dim st chunks commitOk).1.rows
          = st.rows ++ (chunks.filter (validEmbedding dim)).map toChunkModel
        ∧ (PostgresVectorStore.add dim st chunks commitOk).2
          = (chunks.filter (validEmbedding dim)).map (·.id))
      ∨ ((PostgresVectorStore.add dim st chunks commitOk).1 = st
        ∧ (PostgresVectorStore.add dim st chunks commitOk).2 = [])) := by
  refine ⟨add_false_eq dim st chunks, ?_⟩
  cases commitOk with
  | false =>
    right
    rw [add_false_eq]
    exact ⟨rfl, rfl⟩
  | true =>
    left
    rw [add_true_eq]
    exact ⟨rfl, rfl⟩

/-- `C2` counterexample: a mis-dimensioned query embedding (length 1 at
dimension 2) and an empty query embedding both make `query` return the
plain empty list over a non-empty store — exactly the value returned when
querying an empty store with a valid embedding. The caller therefore
cannot distinguish the rejected query from the empty-result outcome; the
rejection is merely an empty list, not an error condition. -/
theorem C2_counterexample :
    PostgresVectorStore.query 2 dist₀ ⟨[row₀]⟩ [1] 5 none true = []
    ∧ PostgresVectorStore.query 2 dist₀ ⟨[row₀]⟩ [] 5 none true = []
    ∧ PostgresVectorStore.query 2 dist₀ emptyStore [1, 0] 5 none true = []
    ∧ PostgresVectorStore.query 2 dist₀ ⟨[row₀]⟩ [1] 5 none true
        = PostgresVectorStore.query 2 dist₀ emptyStore [1, 0] 5 none true := by
  refine ⟨rfl, rfl, ?_, ?_⟩ <;> rfl

/-- `C2` amended: an empty or mis-dimensioned query embedding makes
`query` return the empty list (after logging), the very value produced by
querying an empty store, so the outcome is not distinguishable from
"no results" by the caller. -/
theorem C2_invalid_query_returns_empty (dim : Nat)
    (dist : List ℚ → List ℚ → ℚ) (st : StoreState) (qe : List ℚ)
    (k : Nat) (filters : Option (List (String × MetaVal))) (dbOk : Bool)
    (h : qe = [] ∨ qe.length ≠ dim) :
    PostgresVectorStore.query dim dist st qe k filters dbOk = []
    ∧ PostgresVectorStore.query dim dist st qe k filters dbOk
        = PostgresVectorStore.query dim dist emptyStore qe k filters dbOk := by
  rcases h with h | h
  · subst h
    exact ⟨rfl, rfl⟩
  · unfold PostgresVectorStore.query
    by_cases he : qe.isEmpty
    · simp [he]
    · simp [he, h]

/-- Witness for `C2_invalid_query_returns_empty` at a concrete input:
the length-1 embedding `[1]` against a store of dimension 2. -/
theorem C2_invalid_query_returns_empty_witness :
    (([1] : List ℚ) = [] ∨ ([1] : List ℚ).length ≠ 2)
    ∧ (PostgresVectorStore.query 2 dist₀ ⟨[row₀]⟩ [1] 5 none true = []
      ∧ PostgresVectorStore.query 2 dist₀ ⟨[row₀]⟩ [1] 5 none true
          = PostgresVectorStore.query 2 dist₀ emptyStore [1] 5 none true) :=
  ⟨by decide,
   C2_invalid_query_returns_empty 2 dist₀ ⟨[row₀]⟩ [1] 5 none true (by decide)⟩

theorem query_valid_eq (dim : Nat) (dist : List ℚ → List ℚ → ℚ)
    (st : StoreState) (qe : List ℚ) (k : Nat)
    (h1 : qe ≠ []) (h2 : qe.length = dim) :
    PostgresVectorStore.query dim dist st qe k none true
      = ((sortByKey (fun r => dist qe r.embedding) st.rows).take k).map
          chunkOfModel := by
  unfold PostgresVectorStore.query
  have he : qe.isEmpty = false := by
    simpa [List.isEmpty_iff] using h1
  have hflt : st.rows.filter (matchesFilters []) = st.rows := by
    show st.rows.filter (fun _ => true) = st.rows
    exact List.filter_true st.rows
  simp only [he, h2, Bool.false_eq_true, if_false, ne_eq, not_true_eq_false,
    Bool.not_true, Option.getD_none]
  rw [hflt]

/-- `C3`: for a valid (non-empty, correctly dimensioned) query embedding,
`query` returns the first `top_k` of the store's rows ranked by ascending
distance to the query vector, hence at most `top_k` chunks and exactly
`min top_k n` over an `n`-row store (2 for `top_k = 5` over 2 rows, none
over an empty store); the result is sorted by ascending distance, and the
ranking is stable: rows at equal distance keep their insertion order, as
the filter-by-distance identity states. -/
theorem C3_query_ranking (dim : Nat) (dist : List ℚ → List ℚ → ℚ)
    (st : StoreState) (qe : List ℚ) (k : Nat)
    (h1 : qe ≠ []) (h2 : qe.length = dim) :
    PostgresVectorStore.query dim dist st qe k none true
      = ((sortByKey (fun r => dist qe r.embedding) st.rows).take k).map
          chunkOfModel
    ∧ (PostgresVectorStore.query dim dist st qe k none true).length
        = min k st.rows.length
    ∧ List.Pairwise
        (fun c d => dist qe (c.embedding.getD []) ≤ dist qe (d.embedding.getD []))
        (PostgresVectorStore.query dim dist st qe k none true)
    ∧ ∀ q : ℚ,
        (sortByKey (fun r => dist qe r.embedding) st.rows).filter
            (fun r => decide (dist qe r.embedding = q))
          = st.rows.filter (fun r => decide (dist qe r.embedding = q)) := by
  have hq := query_valid_eq dim dist st qe k h1 h2
  refine ⟨hq, ?_, ?_, fun q => filter_sortByKey _ q _⟩
  · rw [hq]
    rw [List.length_map, List.length_take, length_sortByKey]
  · rw [hq]
    refine List.pairwise_map.2 ?_
    exact ((pairwise_sortByKey (fun r => dist qe r.embedding) st.rows).sublist
      (List.take_sublist k _))

/-- Witness for `C3_query_ranking` at a concrete input: `top_k = 5`
against a 2-row store of dimension 2, where the length conjunct gives
exactly `min 5 2 = 2` results. -/
theorem C3_query_ranking_witness :
    (([1, 0] : List ℚ) ≠ [] ∧ ([1, 0] : List ℚ).length = 2)
    ∧ (PostgresVectorStore.query 2 dist₀ ⟨[row₀, row₁]⟩ [1, 0] 5 none true
        = ((sortByKey (fun r => dist₀ [1, 0] r.embedding)
            (StoreState.mk [row₀, row₁]).rows).take 5).map chunkOfModel
      ∧ (PostgresVectorStore.query 2 dist₀ ⟨[row₀, row₁]⟩ [1, 0] 5 none true).length
          = min 5 (StoreState.mk [row₀, row₁]).rows.length
      ∧ List.Pairwise
          (fun c d => dist₀ [1, 0] (c.embedding.getD [])
            ≤ dist₀ [1, 0] (d.embedding.getD []))
          (PostgresVectorStore.query 2 dist₀ ⟨[row₀, row₁]⟩ [1, 0] 5 none true)
      ∧ ∀ q : ℚ,
          (sortByKey (fun r => dist₀ [1, 0] r.embedding)
              (StoreState.mk [row₀, row₁]).rows).filter
              (fun r => decide (dist₀ [1, 0] r.embedding = q))
            = (StoreState.mk [row₀, row₁]).rows.filter
              (fun r => decide (dist₀ [1, 0] r.embedding = q))) :=
  ⟨⟨by decide, by decide⟩,
   C3_query_ranking 2 dist₀ ⟨[row₀, row₁]⟩ [1, 0] 5 (by decide) (by decide)⟩

/-- `C5`: a batch whose embedding call returns an empty result or a count
different from the batch size is skipped — the loop's outcome on the
remaining batches is exactly as if the bad batch had not been there — and
`run_ingestion` reports success precisely when the total number of chunks
stored over all batches is strictly positive. -/
theorem C5_batch_skip_and_success (dim : Nat)
    (embed : List String → List (List ℚ)) (commitOk : Nat → Bool) :
    (∀ (i : Nat) (st : StoreState) (b : List DocumentChunk)
        (bs : List (List DocumentChunk)),
        (embed (b.map (·.content))).isEmpty = true
          ∨ (embed (b.map (·.content))).length ≠ b.length →
        processBatches dim embed commitOk i st (b :: bs)
          = processBatches dim embed commitOk (i + 1) st bs)
    ∧ (∀ (split : String → List String) (idGen : String → Nat → String)
        (bs : Nat) (docs : List Document) (st : StoreState),
        docs ≠ [] → docs.flatMap (chunkDocument split idGen) ≠ [] → bs ≠ 0 →
        ((run_ingestion dim split idGen embed commitOk bs docs st).1 = true
          ↔ 0 < (processBatches dim embed commitOk 0 st
              (chunkBatches bs (docs.flatMap (chunkDocument split idGen)))).1)) := by
  constructor
  · intro i st b bs h
    have hbad : embedBatchBad (embed (b.map (·.content))) b = true := by
      rcases h with h | h
      · simp [embedBatchBad, h]
      · simp [embedBatchBad, h]
    simp [processBatches, hbad]
  · intro split idGen bs docs st hd hc hbs
    have hd' : docs.isEmpty = false := by simp [List.isEmpty_iff, hd]
    have hc' : (docs.flatMap (chunkDocument split idGen)).isEmpty = false := by
      simp [List.isEmpty_iff, hc]
    unfold run_ingestion
    simp [hd', hc', hbs]

/-- Witness for `C5_batch_skip_and_success` at a concrete input: a failing
embedder (returning no vectors) makes the one-batch loop behave like the
empty loop, and a one-document ingestion run's success criterion reduces
to a positive stored-chunk total. -/
theorem C5_batch_skip_and_success_witness :
    ((embedFailing ([chunkValid].map (·.content))).isEmpty = true
      ∨ (embedFailing ([chunkValid].map (·.content))).length ≠ [chunkValid].length)
    ∧ (([doc₀] : List Document) ≠ []
      ∧ [doc₀].flatMap (chunkDocument split₀ idGen₀) ≠ [] ∧ (100 : Nat) ≠ 0)
    ∧ processBatches 2 embedFailing commitAll 0 emptyStore [[chunkValid]]
        = processBatches 2 embedFailing commitAll 1 emptyStore []
    ∧ ((run_ingestion 2 split₀ idGen₀ embedFailing commitAll 100 [doc₀]
          emptyStore).1 = true
        ↔ 0 < (processBatches 2 embedFailing commitAll 0 emptyStore
            (chunkBatches 100 ([doc₀].flatMap (chunkDocument split₀ idGen₀)))).1) :=
  ⟨Or.inl (by decide), ⟨by decide, by decide, by decide⟩,
   (C5_batch_skip_and_success 2 embedFailing commitAll).1 0 emptyStore
     [chunkValid] [] (Or.inl (by decide)),
   (C5_batch_skip_and_success 2 embedFailing commitAll).2 split₀ idGen₀ 100
     [doc₀] emptyStore (by decide) (by decide) (by decide)⟩

/-- `C6` counterexample: a source yielding one document whose content
produces zero chunks makes `run_ingestion` return the non-error `false`
with the store untouched, yet the `run_ingestion.py` entry point exits
with code 1, not 0: its empty-source re-check sees a non-empty document
list and takes the failure branch. This refutes "the ingestion entry
point signals exit code 0 (not 1) in both cases". -/
theorem C6_counterexample :
    run_ingestion 2 split₀ idGen₀ embed₀ commitAll 100 [docNoChunks] emptyStore
      = (false, emptyStore)
    ∧ ingestionMainExit 2 split₀ idGen₀ embed₀ commitAll 100 [docNoChunks]
        emptyStore = 1
    ∧ ingestionMainExit 2 split₀ idGen₀ embed₀ commitAll 100 [docNoChunks]
        emptyStore ≠ 0 :=
  ⟨rfl, rfl, by decide⟩

/-- `C6` amended: a zero-document source and a documents-but-zero-chunks
source produce the same non-error service outcome — `run_ingestion`
returns `false` with the store unchanged — but the entry point exits 0
only in the zero-document case; with documents and zero chunks it exits
1, the code it also uses for pipeline failure. -/
theorem C6_nothing_ingested (dim : Nat) (split : String → List String)
    (idGen : String → Nat → String) (embed : List String → List (List ℚ))
    (commitOk : Nat → Bool) (bs : Nat) (docs : List Document)
    (st : StoreState) :
    run_ingestion dim split idGen embed commitOk bs [] st = (false, st)
    ∧ ingestionMainExit dim split idGen embed commitOk bs [] st = 0
    ∧ (docs ≠ [] → (∀ d ∈ docs, split d.content = []) →
        run_ingestion dim split idGen embed commitOk bs docs st = (false, st)
        ∧ ingestionMainExit dim split idGen embed commitOk bs docs st = 1) := by
  refine ⟨rfl, rfl, ?_⟩
  intro hd hsplit
  have hd' : docs.isEmpty = false := by simp [List.isEmpty_iff, hd]
  have hnil : docs.flatMap (chunkDocument split idGen) = [] := by
    refine List.flatMap_eq_nil_iff.2 ?_
    intro d hdmem
    simp [chunkDocument, hsplit d hdmem]
  have hrun : run_ingestion dim split idGen embed commitOk bs docs st
      = (false, st) := by
    unfold run_ingestion
    simp [hd', hnil]
  refine ⟨hrun, ?_⟩
  unfold ingestionMainExit
  rw [hrun]
  simp [hd']

/-- Witness for `C6_nothing_ingested` at a concrete input: a one-document
list whose only document yields no chunks. -/
theorem C6_nothing_ingested_witness :
    (([docNoChunks] : List Document) ≠ []
      ∧ ∀ d ∈ [docNoChunks], split₀ d.content = [])
    ∧ (run_ingestion 2 split₀ idGen₀ embed₀ commitAll 100 [] emptyStore
        = (false, emptyStore)
      ∧ ingestionMainExit 2 split₀ idGen₀ embed₀ commitAll 100 [] emptyStore = 0
      ∧ (([docNoChunks] : List Document) ≠ []
          → (∀ d ∈ [docNoChunks], split₀ d.content = [])
          → run_ingestion 2 split₀ idGen₀ embed₀ commitAll 100 [docNoChunks]
              emptyStore = (false, emptyStore)
            ∧ ingestionMainExit 2 split₀ idGen₀ embed₀ commitAll 100
                [docNoChunks] emptyStore = 1)) :=
  ⟨⟨by decide, by decide⟩,
   C6_nothing_ingested 2 split₀ idGen₀ embed₀ commitAll 100 [docNoChunks]
     emptyStore⟩

/-- `C7`: splitting a document into `n` chunks produces chunks whose
contents are the split pieces in split order, whose `chunk_index`
metadata values are exactly `0..n-1` in that order (hence unique and
contiguous), each of whose other metadata keys reads exactly as in the
parent document's metadata (a fresh copy per chunk — the parent mapping,
being a value here as the Python dict is copied there, is untouched),
and each of which carries the parent's document id. -/
theorem C7_chunk_indexing (split : String → List String)
    (idGen : String → Nat → String) (doc : Document) :
    (chunkDocument split idGen doc).map (·.content) = split doc.content
    ∧ (chunkDocument split idGen doc).map
        (fun c => Meta.get "chunk_index" c.metadata)
      = (List.range (split doc.content).length).map
          (fun i : ℕ => some (MetaVal.int i))
    ∧ (∀ c ∈ chunkDocument split idGen doc, ∀ k, k ≠ "chunk_index" →
        Meta.get k c.metadata = Meta.get k doc.metadata)
    ∧ ∀ c ∈ chunkDocument split idGen doc, c.document_id = doc.id := by
  refine ⟨?_, ?_, ?_, ?_⟩
  · unfold chunkDocument
    rw [List.map_map]
    exact List.enum_map_snd (split doc.content)
  · unfold chunkDocument
    rw [List.map_map]
    have h1 : ((fun c => Meta.get "chunk_index" c.metadata) ∘
        fun it : Nat × String =>
          ({ id := idGen doc.id it.1, document_id := doc.id, content := it.2,
             metadata := ("chunk_index", MetaVal.int it.1) :: doc.metadata,
             embedding := none } : DocumentChunk))
        = (fun i : ℕ => some (MetaVal.int i)) ∘ Prod.fst := by
      funext it
      simp [Function.comp, Meta.get]
    rw [h1, ← List.map_map, List.enum_map_fst]
  · intro c hc k hk
    rcases List.mem_map.1 hc with ⟨it, _, hcf⟩
    rw [← hcf]
    simp only [Meta.get]
    rw [if_neg (Ne.symm hk)]
  · intro c hc
    rcases List.mem_map.1 hc with ⟨it, _, hcf⟩
    rw [← hcf]

/-- Witness for `C7_chunk_indexing` at a concrete input: a one-piece
split of `doc₀`, whose single chunk gets `chunk_index = 0` and inherits
the parent's `source`. -/
theorem C7_chunk_indexing_witness :
    (chunkDocument split₀ idGen₀ doc₀).map (·.content) = split₀ doc₀.content
    ∧ (chunkDocument split₀ idGen₀ doc₀).map
        (fun c => Meta.get "chunk_index" c.metadata)
      = (List.range (split₀ doc₀.content).length).map
          (fun i : ℕ => some (MetaVal.int i))
    ∧ (∀ c ∈ chunkDocument split₀ idGen₀ doc₀, ∀ k, k ≠ "chunk_index" →
        Meta.get k c.metadata = Meta.get k doc₀.metadata)
    ∧ ∀ c ∈ chunkDocument split₀ idGen₀ doc₀, c.document_id = doc₀.id :=
  C7_chunk_indexing split₀ idGen₀ doc₀

/-! ### Lemmas evaluating `QueryService.query` case by case -/

theorem query_embed_error (col : QueryCollabs) (top_k : Nat) (uq e : String)
    (h : col.embedQuery uq = .error e) :
    QueryService.query col top_k uq
      = ⟨"[Error processing query: " ++ e ++ "]", [], []⟩ := by
  unfold QueryService.query
  rw [h]

theorem query_embed_empty (col : QueryCollabs) (top_k : Nat) (uq : String)
    (h : col.embedQuery uq = .ok []) :
    QueryService.query col top_k uq
      = ⟨"[Error: Failed to embed query]", [], []⟩ := by
  unfold QueryService.query
  rw [h]
  rfl

theorem query_store_error (col : QueryCollabs) (top_k : Nat) (uq : String)
    (qe : List ℚ) (e : String)
    (h1 : col.embedQuery uq = .ok qe) (h2 : qe ≠ [])
    (h3 : col.storeQuery qe top_k = .error e) :
    QueryService.query col top_k uq
      = ⟨"[Error processing query: " ++ e ++ "]", [(qe, top_k)], []⟩ := by
  have h2' : qe.isEmpty = false := by simp [List.isEmpty_iff, h2]
  unfold QueryService.query
  rw [h1]
  simp only [h2', Bool.false_eq_true, if_false]
  rw [h3]

theorem query_llm_error (col : QueryCollabs) (top_k : Nat) (uq : String)
    (qe : List ℚ) (chunks : List DocumentChunk) (e : String)
    (h1 : col.embedQuery uq = .ok qe) (h2 : qe ≠ [])
    (h3 : col.storeQuery qe top_k = .ok chunks)
    (h4 : col.llmGenerate (buildPrompt (formatContext chunks) uq) = .error e) :
    QueryService.query col top_k uq
      = ⟨"[Error processing query: " ++ e ++ "]", [(qe, top_k)],
         [buildPrompt (formatContext chunks) uq]⟩ := by
  have h2' : qe.isEmpty = false := by simp [List.isEmpty_iff, h2]
  unfold QueryService.query
  rw [h1]
  simp only [h2', Bool.false_eq_true, if_false]
  rw [h3]
  simp only []
  rw [h4]

theorem query_llm_ok (col : QueryCollabs) (top_k : Nat) (uq : String)
    (qe : List ℚ) (chunks : List DocumentChunk) (r : String)
    (h1 : col.embedQuery uq = .ok qe) (h2 : qe ≠ [])
    (h3 : col.storeQuery qe top_k = .ok chunks)
    (h4 : col.llmGenerate (buildPrompt (formatContext chunks) uq) = .ok r) :
    QueryService.query col top_k uq
      = ⟨r, [(qe, top_k)], [buildPrompt (formatContext chunks) uq]⟩ := by
  have h2' : qe.isEmpty = false := by simp [List.isEmpty_iff, h2]
  unfold QueryService.query
  rw [h1]
  simp only [h2', Bool.false_eq_true, if_false]
  rw [h3]
  simp only []
  rw [h4]

/-- `C8`: when the query path reaches retrieval, the context block is the
literal no-context marker (a non-empty string) if retrieval returned zero
chunks, and otherwise the retrieved chunks' `source`/`page`/`content`
records joined in exactly retrieval rank order with no re-sorting and no
deduplication; the prompt built from that context is passed to the
generation provider exactly once, whether or not generation succeeds. -/
theorem C8_context_and_single_generation (col : QueryCollabs) (top_k : Nat)
    (uq : String) (qe : List ℚ) (chunks : List DocumentChunk)
    (h1 : col.embedQuery uq = .ok qe) (h2 : qe ≠ [])
    (h3 : col.storeQuery qe top_k = .ok chunks) :
    (QueryService.query col top_k uq).llmCalls
      = [buildPrompt (formatContext chunks) uq]
    ∧ (chunks = [] → formatContext chunks = NO_CONTEXT_MARKER)
    ∧ NO_CONTEXT_MARKER ≠ ""
    ∧ (chunks ≠ [] →
        formatContext chunks
          = String.intercalate "\n---\n" (chunks.map chunkRecord)) := by
  refine ⟨?_, ?_, by decide, ?_⟩
  · cases h4 : col.llmGenerate (buildPrompt (formatContext chunks) uq) with
    | error e => rw [query_llm_error col top_k uq qe chunks e h1 h2 h3 h4]
    | ok r => rw [query_llm_ok col top_k uq qe chunks r h1 h2 h3 h4]
  · intro hnil
    subst hnil
    rfl
  · intro hne
    have : chunks.isEmpty = false := by simp [List.isEmpty_iff, hne]
    unfold formatContext
    rw [this]
    rfl

/-- Witness for `C8_context_and_single_generation` at a concrete input:
all collaborators succeed and retrieval returns nothing, so the prompt
contains the no-context marker and the provider is called once. -/
theorem C8_context_and_single_generation_witness :
    (colOk.embedQuery "q" = .ok [1, 0] ∧ ([1, 0] : List ℚ) ≠ []
      ∧ colOk.storeQuery [1, 0] 5 = .ok [])
    ∧ ((QueryService.query colOk 5 "q").llmCalls
        = [buildPrompt (formatContext []) "q"]
      ∧ (([] : List DocumentChunk) = [] → formatContext [] = NO_CONTEXT_MARKER)
      ∧ NO_CONTEXT_MARKER ≠ ""
      ∧ (([] : List DocumentChunk) ≠ [] →
          formatContext []
            = String.intercalate "\n---\n"
                (([] : List DocumentChunk).map chunkRecord))) :=
  ⟨⟨rfl, by decide, rfl⟩,
   C8_context_and_single_generation colOk 5 "q" [1, 0] [] rfl (by decide) rfl⟩

/-- `C9` counterexample: with a generation collaborator returning
`"  hi  "`, `QueryService.query` returns `"  hi  "` itself — a string whose
first character is still a whitespace, so the query path does not
whitespace-trim the generated text (trimming happens only inside
`OllamaProvider`), refuting "on success the generated text verbatim
(whitespace-trimmed)" for arbitrary collaborator behaviour. -/
theorem C9_counterexample :
    (QueryService.query colWhitespace 5 "q").result = "  hi  "
    ∧ (QueryService.query colWhitespace 5 "q").result.data.head? = some ' '
    ∧ ' '.isWhitespace = true := by
  refine ⟨rfl, ?_, ?_⟩ <;> decide

/-- `C9` amended: for every behaviour of the embedding, store and
generation collaborators, `QueryService.query` returns a string — never an
exception: an embedding exception or a retrieval exception or a generation
exception yields the descriptive `[Error processing query: ...]` string,
an empty query embedding terminates the query with the embed-failure
string and neither retrieval nor generation is invoked, and when every
step succeeds the result is the generated text verbatim (untrimmed). -/
theorem C9_query_never_raises (col : QueryCollabs) (top_k : Nat)
    (uq : String) :
    (∀ e, col.embedQuery uq = .error e →
        QueryService.query col top_k uq
          = ⟨"[Error processing query: " ++ e ++ "]", [], []⟩)
    ∧ (col.embedQuery uq = .ok [] →
        QueryService.query col top_k uq
          = ⟨"[Error: Failed to embed query]", [], []⟩)
    ∧ (∀ qe, col.embedQuery uq = .ok qe → qe ≠ [] →
        ∀ e, col.storeQuery qe top_k = .error e →
          QueryService.query col top_k uq
            = ⟨"[Error processing query: " ++ e ++ "]", [(qe, top_k)], []⟩)
    ∧ (∀ qe chunks, col.embedQuery uq = .ok qe → qe ≠ [] →
        col.storeQuery qe top_k = .ok chunks →
        ∀ e, col.llmGenerate (buildPrompt (formatContext chunks) uq) = .error e →
          (QueryService.query col top_k uq).result
            = "[Error processing query: " ++ e ++ "]")
    ∧ (∀ qe chunks r, col.embedQuery uq = .ok qe → qe ≠ [] →
        col.storeQuery qe top_k = .ok chunks →
        col.llmGenerate (buildPrompt (formatContext chunks) uq) = .ok r →
          (QueryService.query col top_k uq).result = r) := by
  refine ⟨?_, ?_, ?_, ?_, ?_⟩
  · intro e h
    exact query_embed_error col top_k uq e h
  · intro h
    exact query_embed_empty col top_k uq h
  · intro qe h1 h2 e h3
    exact query_store_error col top_k uq qe e h1 h2 h3
  · intro qe chunks h1 h2 h3 e h4
    rw [query_llm_error col top_k uq qe chunks e h1 h2 h3 h4]
  · intro qe chunks r h1 h2 h3 h4
    rw [query_llm_ok col top_k uq qe chunks r h1 h2 h3 h4]

/-- Witness for `C9_query_never_raises` at a concrete input: the
all-success scenario, returning the generated text verbatim. -/
theorem C9_query_never_raises_witness :
    (colOk.embedQuery "q" = .ok [1, 0] ∧ ([1, 0] : List ℚ) ≠ []
      ∧ colOk.storeQuery [1, 0] 5 = .ok []
      ∧ colOk.llmGenerate (buildPrompt (formatContext []) "q") = .ok "answer")
    ∧ (QueryService.query colOk 5 "q").result = "answer" :=
  ⟨⟨rfl, by decide, rfl, rfl⟩,
   (C9_query_never_raises colOk 5 "q").2.2.2.2 [1, 0] [] "answer" rfl
     (by decide) rfl rfl⟩

/-- `C10`: for every prompt, model choice and history,
`OllamaProvider.generate` is a total string-valued function — the caller
always receives a plain string, of the same type whether generation
succeeded or failed: on API success it returns the extracted text with
leading and trailing whitespace stripped (the chat endpoint is used for a
non-empty history, the generate endpoint otherwise), and on an API
exception it returns the bracketed `[Error generating response: ...]`
string. -/
theorem C10_generate_never_raises (dm : String)
    (chatCall : String → List (String × String) → OllamaCall)
    (genCall : String → String → OllamaCall)
    (prompt : String) (history : List (String × String))
    (model : Option String) :
    (history = [] → ∀ r, genCall (targetModel dm model) prompt = .ok r →
        OllamaProvider.generate dm chatCall genCall prompt history model
          = (r.getD "").trim)
    ∧ (history = [] → ∀ e, genCall (targetModel dm model) prompt = .error e →
        OllamaProvider.generate dm chatCall genCall prompt history model
          = "[Error generating response: " ++ e ++ "]")
    ∧ (history ≠ [] → ∀ r,
        chatCall (targetModel dm model) (history ++ [("user", prompt)]) = .ok r →
        OllamaProvider.generate dm chatCall genCall prompt history model
          = (r.getD "").trim)
    ∧ (history ≠ [] → ∀ e,
        chatCall (targetModel dm model) (history ++ [("user", prompt)]) = .error e →
        OllamaProvider.generate dm chatCall genCall prompt history model
          = "[Error generating response: " ++ e ++ "]") := by
  refine ⟨?_, ?_, ?_, ?_⟩
  · intro hh r h
    subst hh
    unfold OllamaProvider.generate
    simp [h]
  · intro hh e h
    subst hh
    unfold OllamaProvider.generate
    simp [h]
  · intro hh r h
    have hh' : history.isEmpty = false := by simp [List.isEmpty_iff, hh]
    unfold OllamaProvider.generate
    simp [hh', h]
  · intro hh e h
    have hh' : history.isEmpty = false := by simp [List.isEmpty_iff, hh]
    unfold OllamaProvider.generate
    simp [hh', h]

/-- Witness for `C10_generate_never_raises` at concrete inputs: an empty
history with a successful generate-endpoint call returning padded text,
whose result is the stripped text. -/
theorem C10_generate_never_raises_witness :
    (([] : List (String × String)) = []
      ∧ genCallOk (targetModel "llama3" none) "p" = .ok (some "  resp  "))
    ∧ OllamaProvider.generate "llama3" chatCallErr genCallOk "p" [] none
        = ((some "  resp  ").getD "").trim :=
  ⟨⟨rfl, rfl⟩,
   (C10_generate_never_raises "llama3" chatCallErr genCallOk "p" [] none).1
     rfl (some "  resp  ") rfl⟩
